import Mathlib

/-!
Shallow embedding of the invoice extraction-and-reconciliation pipeline of
the `hoai-invoice-processing` repository.

Data model follows the SQLite DDL (`CREATE TABLE Invoice` / `CREATE TABLE
LineItem`): dates are integer epoch values (`Nat`), monetary amounts are
`REAL` columns modelled as exact rationals (`ℚ`), nullable columns are
`Option`.  The database is modelled as a `Store` holding the two tables as
lists in insertion (rowid) order; drizzle's `.get()` returns the first row
of a query, `.all()` every row, inserts append.

`generateUUID` is modelled as an abstract injective supply of fresh ids
`gen : Nat → String`, consumed by an explicit counter; `new Date()` at write
time is a `now : Nat` parameter.  The external LLM call (`generateObject`)
is modelled by giving each attached file its extraction outcome up front:
`Except String (ExtractResult × Nat)` — `.error` models a thrown/timed-out
call, `.ok` a parsed object (the zod schema guarantees all fields of the
parsed object are present).
-/

namespace HoaiInvoice

/-- `status` column of `Invoice`: `'processed' | 'pending' | 'error'`. -/
inductive InvoiceStatus where
  | processed
  | pending
  | error
deriving DecidableEq, Repr

/-- One row of the `Invoice` table (columns of the DDL in order). -/
structure Invoice where
  id : String
  createdAt : Nat
  customerName : String
  vendorName : String
  invoiceNumber : String
  invoiceDate : Nat
  dueDate : Option Nat
  amount : ℚ
  currency : Option String
  status : InvoiceStatus
  filePath : Option String
  fileType : Option String
  fileSize : Option Nat
  tokensUsed : Option Nat
  tokensCost : Option ℚ
  notes : Option String
deriving DecidableEq, Repr

/-- One row of the `LineItem` table; `metadata` is an opaque blob. -/
structure LineItem where
  id : String
  invoiceId : String
  description : String
  quantity : Option ℚ
  unitPrice : Option ℚ
  amount : ℚ
  productCode : Option String
  taxRate : Option ℚ
  metadata : Option String
  createdAt : Nat
deriving DecidableEq, Repr

/-- The relational store: both tables in insertion (rowid) order. -/
structure Store where
  invoices : List Invoice
  lineItems : List LineItem
deriving DecidableEq, Repr

def emptyStore : Store := ⟨[], []⟩

/-- A line item of the extraction schema `lineItemSchema` (no id yet). -/
structure LineItemData where
  description : String
  quantity : Option ℚ
  unitPrice : Option ℚ
  amount : ℚ
  productCode : Option String
  taxRate : Option ℚ
  metadata : Option String
deriving DecidableEq, Repr

/-- `invoiceDataSchema`: the invoice-shaped value produced by extraction.
zod applies the `'USD'` default, so `currency` is always present here. -/
structure InvoiceData where
  customerName : String
  vendorName : String
  invoiceNumber : String
  invoiceDate : Nat
  dueDate : Option Nat
  amount : ℚ
  currency : String
  lineItems : List LineItemData
  notes : Option String
deriving DecidableEq, Repr

/-- `extractInvoiceSchema` / `invoiceSchema`: the model's structured answer
for one file (`invoiceData`/`data`, `isInvoice`, `confidence`, `reasoning`). -/
structure ExtractResult where
  invoiceData : InvoiceData
  isInvoice : Bool
  confidence : ℚ
  reasoning : String
deriving DecidableEq, Repr

/-! ## Duplicate Detector (`findDuplicateInvoice` in the db queries file) -/

/-- The drizzle `where` clause of `findDuplicateInvoice`:
`and(eq(vendorName, v), eq(invoiceNumber, n), eq(amount, a))` —
case-sensitive string equality and exact numeric equality. -/
def duplicateKeyMatches (vendorName invoiceNumber : String) (amount : ℚ)
    (inv : Invoice) : Bool :=
  inv.vendorName = vendorName && inv.invoiceNumber = invoiceNumber &&
    inv.amount = amount

/-- `findDuplicateInvoice({vendorName, invoiceNumber, amount})`:
`select … where and(eq …, eq …, eq …) .get()` — the first matching row,
or none. -/
def findDuplicateInvoice (invoices : List Invoice)
    (vendorName invoiceNumber : String) (amount : ℚ) : Option Invoice :=
  invoices.find? (duplicateKeyMatches vendorName invoiceNumber amount)

/-! ## Storage Gateway: line items -/

/-- Fields accepted by `saveLineItems` for one item (id and invoiceId are
already assigned by the caller; `createdAt` is added by the query). -/
structure LineItemInsert where
  id : String
  invoiceId : String
  description : String
  quantity : Option ℚ
  unitPrice : Option ℚ
  amount : ℚ
  productCode : Option String
  taxRate : Option ℚ
  metadata : Option String
deriving DecidableEq, Repr

/-- `saveLineItems`'s `items.map((item) => ({...item, createdAt: new Date()}))`. -/
def lineItemRow (now : Nat) (item : LineItemInsert) : LineItem :=
  { id := item.id
    invoiceId := item.invoiceId
    description := item.description
    quantity := item.quantity
    unitPrice := item.unitPrice
    amount := item.amount
    productCode := item.productCode
    taxRate := item.taxRate
    metadata := item.metadata
    createdAt := now }

/-- `saveLineItems({items})`: `if (items.length === 0) return [];` else
bulk-insert all rows (with `createdAt`) and return them (`returning().all()`). -/
def saveLineItems (now : Nat) (items : List LineItemInsert) (st : Store) :
    List LineItem × Store :=
  if items.length = 0 then ([], st)
  else
    let rows := items.map (lineItemRow now)
    (rows, { st with lineItems := st.lineItems ++ rows })

/-- `deleteLineItemsByInvoiceId({invoiceId})`:
`delete from lineItem where eq(lineItem.invoiceId, invoiceId)`. -/
def deleteLineItemsByInvoiceId (invoiceId : String) (st : Store) : Store :=
  { st with lineItems := st.lineItems.filter (fun li => li.invoiceId ≠ invoiceId) }

/-! ## Storage Gateway: invoices -/

/-- `saveInvoice({...})`: insert one `Invoice` row; `createdAt: new Date()`,
`status: 'processed'` set by the query; `currency` defaults to `'USD'` via
the destructuring default when the caller omits it. -/
def saveInvoice (now : Nat) (id customerName vendorName invoiceNumber : String)
    (invoiceDate : Nat) (dueDate : Option Nat) (amount : ℚ)
    (currency : Option String) (filePath fileType : Option String)
    (fileSize tokensUsed : Option Nat) (tokensCost : Option ℚ)
    (notes : Option String) (st : Store) : Invoice × Store :=
  let row : Invoice :=
    { id := id
      createdAt := now
      customerName := customerName
      vendorName := vendorName
      invoiceNumber := invoiceNumber
      invoiceDate := invoiceDate
      dueDate := dueDate
      amount := amount
      currency := some (currency.getD "USD")
      status := InvoiceStatus.processed
      filePath := filePath
      fileType := fileType
      fileSize := fileSize
      tokensUsed := tokensUsed
      tokensCost := tokensCost
      notes := notes }
  (row, { st with invoices := st.invoices ++ [row] })

/-- The optional patch fields of `updateInvoice` — one `Option` per
updatable column; `none` models a JS `undefined` argument. -/
structure InvoiceUpdate where
  customerName : Option String := none
  vendorName : Option String := none
  invoiceNumber : Option String := none
  invoiceDate : Option Nat := none
  dueDate : Option Nat := none
  amount : Option ℚ := none
  currency : Option String := none
  status : Option InvoiceStatus := none
  notes : Option String := none
deriving DecidableEq, Repr

/-- The `updateValues` object built by `updateInvoice`: each
`if (field !== undefined) updateValues.field = field` applied to one row. -/
def applyUpdate (u : InvoiceUpdate) (inv : Invoice) : Invoice :=
  { inv with
    customerName := u.customerName.getD inv.customerName
    vendorName := u.vendorName.getD inv.vendorName
    invoiceNumber := u.invoiceNumber.getD inv.invoiceNumber
    invoiceDate := u.invoiceDate.getD inv.invoiceDate
    dueDate := match u.dueDate with
      | some d => some d
      | none => inv.dueDate
    amount := u.amount.getD inv.amount
    currency := match u.currency with
      | some c => some c
      | none => inv.currency
    status := u.status.getD inv.status
    notes := match u.notes with
      | some n => some n
      | none => inv.notes }

/-- `updateInvoice({id, ...})`: `update invoice set updateValues where
eq(invoice.id, id)` — patches every row whose `id` matches, leaves the
rest untouched. -/
def updateInvoice (id : String) (u : InvoiceUpdate) (invoices : List Invoice) :
    List Invoice :=
  invoices.map (fun inv => if inv.id = id then applyUpdate u inv else inv)

/-- `deleteInvoiceById({id})`: `delete from invoice where eq(invoice.id, id)`.
The `LineItem` DDL declares `FOREIGN KEY (invoiceId) REFERENCES Invoice(id)
ON DELETE cascade`, so deleting an invoice row also deletes the line items
referencing it; when no invoice row matches, nothing cascades. -/
def deleteInvoiceById (id : String) (st : Store) : Store :=
  if st.invoices.any (fun inv => inv.id = id) then
    { invoices := st.invoices.filter (fun inv => inv.id ≠ id)
      lineItems := st.lineItems.filter (fun li => li.invoiceId ≠ id) }
  else
    { st with invoices := st.invoices.filter (fun inv => inv.id ≠ id) }

/-- Sorting column direction of `getInvoices` (`orderDirection`). -/
inductive OrderDirection where
  | asc
  | desc
deriving DecidableEq, Repr

/-- `ORDER BY createdAt DESC` comparison used on the `desc` branch. -/
def insertByCreatedAtDesc (inv : Invoice) : List Invoice → List Invoice
  | [] => [inv]
  | x :: xs =>
    if inv.createdAt ≤ x.createdAt then x :: insertByCreatedAtDesc inv xs
    else inv :: x :: xs

/-- Rows ordered newest-first (a model of `orderBy(desc(createdAt))`). -/
def sortByCreatedAtDesc : List Invoice → List Invoice
  | [] => []
  | x :: xs => insertByCreatedAtDesc x (sortByCreatedAtDesc xs)

/-- `getInvoices({limit = 100, offset = 0, orderBy = 'createdAt',
orderDirection = 'desc'})`: `select … limit … offset … orderBy … .all()`.
Only the `createdAt` order column is modelled (the repository's one caller,
the GET route, uses the defaults). -/
def getInvoices (invoices : List Invoice) (limit : Nat)
    (offset : Nat) (orderDirection : OrderDirection) :
    List Invoice :=
  let sorted := match orderDirection with
    | .desc => sortByCreatedAtDesc invoices
    | .asc => (sortByCreatedAtDesc invoices).reverse
  (sorted.drop offset).take limit

/-! ## HTTP surface: the invoices route (`GET` and `PUT` handlers) -/

/-- The JSON response of the invoices route handlers, as far as the claims
reach: status code plus the invoice list body of a successful `GET`. -/
structure GetResponse where
  status : Nat
  body : List Invoice
deriving DecidableEq, Repr

/-- The `GET` handler: `getInvoicesQuery()` with every argument defaulted
(`limit 100, offset 0, orderBy createdAt, orderDirection desc`); a storage
failure (modelled by the `queryFails` flag) is caught and answered with
status 500 (`Failed to fetch invoices`). -/
def GEThandler (queryFails : Bool) (st : Store) : GetResponse :=
  if queryFails then { status := 500, body := [] }
  else { status := 200, body := getInvoices st.invoices 100 0 OrderDirection.desc }

/-- A line item of a `PUT /invoices` body: `id` may be absent (or an empty
string, which JS treats as falsy in `item.id || generateUUID()`). -/
structure PutLineItem where
  id : Option String
  description : String
  quantity : Option ℚ
  unitPrice : Option ℚ
  amount : ℚ
  productCode : Option String
  taxRate : Option ℚ
  metadata : Option String
deriving DecidableEq, Repr

/-- The destructured `PUT /invoices` body
`{id, customerName?, vendorName?, invoiceNumber?, invoiceDate?, dueDate?,
amount?, currency?, lineItems?}`; a missing key is `none`. -/
structure PutBody where
  id : Option String
  customerName : Option String
  vendorName : Option String
  invoiceNumber : Option String
  invoiceDate : Option Nat
  dueDate : Option Nat
  amount : Option ℚ
  currency : Option String
  lineItems : Option (List PutLineItem)
deriving DecidableEq, Repr

/-- `item.id || generateUUID()`: keep a truthy (non-empty) given id,
otherwise draw the next generated id. -/
def resolveLineItemId (gen : Nat → String) (idx : Nat)
    (given : Option String) : String :=
  match given with
  | some s => if s = "" then gen idx else s
  | none => gen idx

/-- The `lineItems.map(item => ({...item, id: item.id || generateUUID(),
invoiceId: id}))` of the `PUT` handler, indexed so each falsy id draws a
distinct generated id; `saveLineItems` will add `createdAt` via
`lineItemRow`. -/
def formatLineItems (gen : Nat → String) (invoiceId : String) :
    Nat → List PutLineItem → List LineItemInsert
  | _, [] => []
  | idx, item :: rest =>
    { id := resolveLineItemId gen idx item.id
      invoiceId := invoiceId
      description := item.description
      quantity := item.quantity
      unitPrice := item.unitPrice
      amount := item.amount
      productCode := item.productCode
      taxRate := item.taxRate
      metadata := item.metadata } :: formatLineItems gen invoiceId (idx + 1) rest

/-- Outcome of the `PUT` handler: status code and the store it leaves. -/
structure PutResponse where
  status : Nat
  store : Store
deriving DecidableEq, Repr

/-- The invoice patch a `PUT` body induces: the eight destructured body
fields forwarded to `updateInvoiceQuery` (`status` and `notes` are never
sent by this route, so they stay undefined). -/
def putPatch (body : PutBody) : InvoiceUpdate :=
  { customerName := body.customerName
    vendorName := body.vendorName
    invoiceNumber := body.invoiceNumber
    invoiceDate := body.invoiceDate
    dueDate := body.dueDate
    amount := body.amount
    currency := body.currency
    status := none
    notes := none }

/-- The `PUT` handler: 400 when `id` is falsy (missing or empty string);
otherwise `updateInvoice` patches the row, and when `lineItems` is an
array the handler deletes all line items of the invoice and re-inserts the
supplied ones, assigning `invoiceId: id` and a generated id to each item
whose own id is falsy. -/
def PUThandler (gen : Nat → String) (now : Nat) (body : PutBody)
    (st : Store) : PutResponse :=
  match body.id with
  | none => { status := 400, store := st }
  | some id =>
    if id = "" then { status := 400, store := st }
    else
      let st1 : Store :=
        { st with invoices := updateInvoice id (putPatch body) st.invoices }
      match body.lineItems with
      | none => { status := 200, store := st1 }
      | some items =>
        let st2 := deleteLineItemsByInvoiceId id st1
        let st3 := (saveLineItems now (formatLineItems gen id 0 items) st2).2
        { status := 200, store := st3 }

/-! ## Extraction Orchestrator: single-file pipeline (`extractInvoiceData`) -/

/-- `createEmptyInvoiceData()`: the fallback invoice value (epoch `new
Date()` taken as 0 — its value is irrelevant to every claim). -/
def createEmptyInvoiceData : InvoiceData :=
  { customerName := ""
    vendorName := ""
    invoiceNumber := ""
    invoiceDate := 0
    dueDate := none
    amount := 0
    currency := "USD"
    lineItems := []
    notes := none }

/-- `performInvoiceExtraction(fileUrl, contentType)`: the `generateObject`
call is the external capability, so its outcome is the input — `.ok` a
parsed object (the zod schema makes every field present; a falsy `object`
would throw into the same catch), `.error` a thrown call.  The catch
returns the fallback `{isInvoice: false, confidence: 0.1,
data: createEmptyInvoiceData(), reasoning: "Error occurred during
extraction"}`. -/
def performInvoiceExtraction (callResult : Except String ExtractResult) :
    ExtractResult :=
  match callResult with
  | .ok r => r
  | .error _ =>
    { invoiceData := createEmptyInvoiceData
      isInvoice := false
      confidence := mkRat 1 10
      reasoning := "Error occurred during extraction" }

/-- The three ways the single-file tool's `execute` answers after a
successful `performInvoiceExtraction`: rejected as not-an-invoice,
flagged duplicate, or extracted data returned for preview (this tool
never persists). -/
inductive SingleOutcome where
  | rejectedNotInvoice
  | duplicate (existingId : String)
  | extracted (data : InvoiceData) (confidence : ℚ) (isInvoice : Bool)
      (reasoning : String)
deriving DecidableEq, Repr

/-- The decision chain of `extractInvoiceData`'s `execute` after the
extraction result is in hand:
`if (!extractionResult.isInvoice || extractionResult.confidence < 0.7)` →
reject; then `findDuplicateInvoice` → duplicate; else return the data. -/
def extractInvoiceDataOutcome (st : Store) (r : ExtractResult) :
    SingleOutcome :=
  if r.isInvoice = false ∨ r.confidence < mkRat 7 10 then
    SingleOutcome.rejectedNotInvoice
  else
    match findDuplicateInvoice st.invoices r.invoiceData.vendorName
        r.invoiceData.invoiceNumber r.invoiceData.amount with
    | some dup => SingleOutcome.duplicate dup.id
    | none =>
      SingleOutcome.extracted r.invoiceData r.confidence r.isInvoice
        r.reasoning

/-! ## Extraction Orchestrator: batch pipeline (`processInvoiceData`) -/

/-- One attached file of the latest user message, together with the
outcome of its `generateObject` extraction call (`.error` models a thrown
call; the `Nat` is `usage.totalTokens`). -/
structure BatchFile where
  name : String
  extraction : Except String (ExtractResult × Nat)
deriving Repr

/-- Events written to the `dataStream` by the two batch-pipeline variants
(the emitter appends them in program order). -/
inductive StreamEvent where
  | invoiceTable (invoiceIds : List String)
  | savingStart
  | savingComplete
  | error (content : String)
deriving DecidableEq, Repr

/-- A file routed to `invoiceAttachments` by the batch pipeline. -/
structure AcceptedFile where
  fileName : String
  invoiceData : InvoiceData
  tokensUsed : Nat
deriving DecidableEq, Repr

/-- The extraction loop of `processInvoiceData`: each file's
`generateObject` is awaited in order and classified by
`object && object.invoiceData && object.isInvoice && object.confidence >
0.75` into `invoiceAttachments` or `nonInvoiceAttachments` (the latter
keeping `object.reasoning`).  The call is not wrapped per file, so a
thrown call (`.error`) escapes the loop to the tool's outer catch —
modelled by the `Except` short-circuit. -/
def classifyFiles : List BatchFile →
    Except String (List AcceptedFile × List (String × String))
  | [] => .ok ([], [])
  | f :: rest =>
    match f.extraction with
    | .error e => .error e
    | .ok (r, tokens) =>
      match classifyFiles rest with
      | .error e => .error e
      | .ok (acc, rej) =>
        if r.isInvoice = true ∧ mkRat 75 100 < r.confidence then
          .ok ({ fileName := f.name, invoiceData := r.invoiceData,
                 tokensUsed := tokens } :: acc, rej)
        else
          .ok (acc, (f.name, r.reasoning) :: rej)

/-- The `invoiceData.lineItems.map(item => ({...item, id: generateUUID(),
invoiceId}))` of `saveInvoiceToDatabase`: every item draws a fresh id. -/
def formatLineItemData (gen : Nat → String) (invoiceId : String) :
    Nat → List LineItemData → List LineItemInsert
  | _, [] => []
  | idx, item :: rest =>
    { id := gen idx
      invoiceId := invoiceId
      description := item.description
      quantity := item.quantity
      unitPrice := item.unitPrice
      amount := item.amount
      productCode := item.productCode
      taxRate := item.taxRate
      metadata := item.metadata } :: formatLineItemData gen invoiceId (idx + 1) rest

/-- `saveInvoiceToDatabase(invoiceData, tokensUsed)` (batch pipeline):
generate an invoice id, `saveInvoice` the row, then — when line items are
present — `saveLineItems` with a generated id per item.  The two inserts
are separate statements with no cross-table transaction, so the
`lineItemInsertFails` flag (an external DB failure of the second
statement) leaves the already-written invoice row in place and propagates
the exception.  Returns the saved row, the store, and the advanced
`generateUUID` counter. -/
def saveInvoiceToDatabase (gen : Nat → String) (now : Nat)
    (lineItemInsertFails : Bool) (c : Nat) (d : InvoiceData)
    (tokensUsed : Nat) (st : Store) :
    Except String Invoice × Store × Nat :=
  let invoiceId := gen c
  let saved := saveInvoice now invoiceId d.customerName d.vendorName
    d.invoiceNumber d.invoiceDate d.dueDate d.amount (some d.currency)
    none none none (some tokensUsed) none d.notes st
  if d.lineItems.length = 0 then (.ok saved.1, saved.2, c + 1)
  else if lineItemInsertFails then
    (.error "saveLineItems failed", saved.2, c + 1)
  else
    let inserts := formatLineItemData gen invoiceId (c + 1) d.lineItems
    (.ok saved.1, (saveLineItems now inserts saved.2).2,
      c + 1 + d.lineItems.length)

/-- An entry of `savedInvoices`: `{...invoiceData, id: savedInvoice.id}`. -/
structure SavedEntry where
  invoiceData : InvoiceData
  id : String
deriving DecidableEq, Repr

/-- An entry of `duplicateInvoices`:
`{fileName, invoiceData, existingInvoice}`. -/
structure DuplicateEntry where
  fileName : String
  invoiceData : InvoiceData
  existingInvoice : Invoice
deriving DecidableEq, Repr

/-- The save loop of `processInvoiceData`: for each accepted attachment in
order, `findDuplicateInvoice` against the current store; a hit goes to
`duplicateInvoices` (`continue` — nothing persisted), otherwise
`saveInvoiceToDatabase` persists invoice and line items and the entry goes
to `savedInvoices`. -/
def saveLoop (gen : Nat → String) (now : Nat) :
    Nat → List AcceptedFile → Store →
    List SavedEntry × List DuplicateEntry × Store
  | _, [], st => ([], [], st)
  | c, a :: rest, st =>
    match findDuplicateInvoice st.invoices a.invoiceData.vendorName
        a.invoiceData.invoiceNumber a.invoiceData.amount with
    | some dup =>
      let out := saveLoop gen now c rest st
      (out.1,
        { fileName := a.fileName, invoiceData := a.invoiceData,
          existingInvoice := dup } :: out.2.1,
        out.2.2)
    | none =>
      let step := saveInvoiceToDatabase gen now false c a.invoiceData
        a.tokensUsed st
      let out := saveLoop gen now step.2.2 rest step.2.1
      ({ invoiceData := a.invoiceData, id := gen c } :: out.1, out.2.1,
        out.2.2)

/-- The `catch` block's stream/message text in
`src/lib/ai/tools/process-invoice-data.ts`. -/
def batchErrorContent : String :=
  "An error occurred while saving the invoice data. Please try again or contact support."

/-- What one run of the batch tool leaves behind: the returned buckets,
the events written to the data stream (in program order), and the store. -/
structure BatchOutput where
  success : Bool
  saved : List SavedEntry
  duplicates : List DuplicateEntry
  nonInvoice : List (String × String)
  events : List StreamEvent
  store : Store
deriving Repr

/-- `processInvoiceData`'s `execute` (current variant,
`src/lib/ai/tools/process-invoice-data.ts`), starting from the attached
files of the latest user message: classify every file (a thrown
extraction escapes to the outer catch, which writes one `error` event and
persists nothing), fail early when no file is accepted, otherwise run the
save loop and — when at least one invoice was saved — write a single
`invoiceTable` data event after the whole batch. -/
def processInvoiceData (gen : Nat → String) (now : Nat)
    (files : List BatchFile) (st : Store) : BatchOutput :=
  if files.length = 0 then
    { success := false, saved := [], duplicates := [], nonInvoice := [],
      events := [], store := st }
  else
    match classifyFiles files with
    | .error _ =>
      { success := false, saved := [], duplicates := [], nonInvoice := [],
        events := [StreamEvent.error batchErrorContent], store := st }
    | .ok (accepted, rejected) =>
      if accepted.length = 0 then
        { success := false, saved := [], duplicates := [],
          nonInvoice := rejected, events := [], store := st }
      else
        let out := saveLoop gen now 0 accepted st
        { success := true, saved := out.1, duplicates := out.2.1,
          nonInvoice := rejected,
          events :=
            if out.1.length = 0 then []
            else [StreamEvent.invoiceTable (out.1.map SavedEntry.id)],
          store := out.2.2 }

/-! ## Batch pipeline, `part_004` variant -/

/-- The extraction loop of the `part_004` variant: no confidence or
`isInvoice` gate — every successfully parsed object
(`object && object.invoiceData`) is kept; a thrown call escapes to the
outer catch as in the current variant. -/
def classifyFilesV0 : List BatchFile → Except String (List AcceptedFile)
  | [] => .ok []
  | f :: rest =>
    match f.extraction with
    | .error e => .error e
    | .ok (r, tokens) =>
      match classifyFilesV0 rest with
      | .error e => .error e
      | .ok acc =>
        .ok ({ fileName := f.name, invoiceData := r.invoiceData,
               tokensUsed := tokens } :: acc)

/-- The save loop of the `part_004` variant: no duplicate check; every
processed attachment is persisted and its stored row collected. -/
def saveLoopV0 (gen : Nat → String) (now : Nat) :
    Nat → List AcceptedFile → Store → List Invoice × Store
  | _, [], st => ([], st)
  | c, a :: rest, st =>
    let step := saveInvoiceToDatabase gen now false c a.invoiceData
      a.tokensUsed st
    match step.1 with
    | .ok row =>
      let out := saveLoopV0 gen now step.2.2 rest step.2.1
      (row :: out.1, out.2)
    | .error _ => saveLoopV0 gen now step.2.2 rest step.2.1

/-- The `catch` block's stream text in the `part_004` variant. -/
def batchErrorContentV0 : String := "Error saving invoice data."

/-- What one run of the `part_004` variant leaves behind. -/
structure BatchOutputV0 where
  success : Bool
  savedRows : List Invoice
  events : List StreamEvent
  store : Store
deriving Repr

/-- `processInvoiceData`'s `execute` of the `part_004` variant: classify
every file, then write `savingStart`, run the save loop over the whole
batch, and write `savingComplete` — one event pair per batch, never per
file. -/
def processInvoiceDataV0 (gen : Nat → String) (now : Nat)
    (files : List BatchFile) (st : Store) : BatchOutputV0 :=
  if files.length = 0 then
    { success := false, savedRows := [], events := [], store := st }
  else
    match classifyFilesV0 files with
    | .error _ =>
      { success := false, savedRows := [],
        events := [StreamEvent.error batchErrorContentV0], store := st }
    | .ok processed =>
      let out := saveLoopV0 gen now 0 processed st
      { success := true, savedRows := out.1,
        events := [StreamEvent.savingStart, StreamEvent.savingComplete],
        store := out.2 }

/-! ## The referential-integrity invariant of the data model -/

/-- No orphaned line items: every `LineItem` row references an existing
`Invoice` row (what the `FOREIGN KEY` of the DDL maintains). -/
def orphanFree (st : Store) : Prop :=
  ∀ li ∈ st.lineItems, ∃ inv ∈ st.invoices, inv.id = li.invoiceId

/-! ## Concrete sample data used to evaluate the model -/

/-- A deterministic id supply standing in for `generateUUID`. -/
def gen0 (n : Nat) : String := "uuid-" ++ toString n

/-- A sample invoice row. -/
def invRow (k : Nat) : Invoice :=
  { id := toString k
    createdAt := k
    customerName := "Acme Corp"
    vendorName := "Vendor Inc"
    invoiceNumber := "INV-" ++ toString k
    invoiceDate := 20200101
    dueDate := none
    amount := 100
    currency := some "USD"
    status := InvoiceStatus.processed
    filePath := none
    fileType := none
    fileSize := none
    tokensUsed := none
    tokensCost := none
    notes := none }

/-- A store holding 101 invoices and no line items. -/
def bigStore : Store := { invoices := (List.range 101).map invRow, lineItems := [] }

/-- A sample extracted invoice payload (one line item). -/
def sampleData : InvoiceData :=
  { customerName := "Acme Corp"
    vendorName := "Vendor Inc"
    invoiceNumber := "INV-7"
    invoiceDate := 20200101
    dueDate := none
    amount := 250
    currency := "USD"
    lineItems := [{ description := "widgets", quantity := some 5,
                    unitPrice := some 50, amount := 250, productCode := none,
                    taxRate := none, metadata := none }]
    notes := none }

/-- A confident genuine-invoice extraction result. -/
def okResult : ExtractResult :=
  { invoiceData := sampleData, isInvoice := true, confidence := mkRat 9 10,
    reasoning := "contains every invoice marker" }

/-- An extraction result at confidence exactly 0.7. -/
def borderResult : ExtractResult :=
  { invoiceData := sampleData, isInvoice := true, confidence := mkRat 7 10,
    reasoning := "mostly legible" }

/-- A batch file whose extraction call parses cleanly. -/
def fileOk : BatchFile := { name := "a.pdf", extraction := .ok (okResult, 10) }

/-- A second clean batch file. -/
def fileOk2 : BatchFile := { name := "c.pdf", extraction := .ok (okResult, 12) }

/-- A batch file whose extraction call throws. -/
def fileErr : BatchFile := { name := "b.pdf", extraction := .error "timeout" }

/-- A batch file whose extraction parses at confidence exactly 0.7. -/
def fileBorder : BatchFile :=
  { name := "d.pdf", extraction := .ok (borderResult, 5) }

/-- `fileOk` as the batch pipeline's accepted attachment. -/
def accA : AcceptedFile :=
  { fileName := "a.pdf", invoiceData := sampleData, tokensUsed := 10 }

/-- `fileOk2` as the batch pipeline's accepted attachment. -/
def accC : AcceptedFile :=
  { fileName := "c.pdf", invoiceData := sampleData, tokensUsed := 12 }

/-- A `PUT` body line item carrying no id. -/
def putItemNoId : PutLineItem :=
  { id := none
    description := "widgets"
    quantity := some 5
    unitPrice := some 50
    amount := 250
    productCode := none
    taxRate := none
    metadata := none }

/-- A `PUT` body updating invoice `"1"` and replacing its line items. -/
def putBodyLI : PutBody :=
  { id := some "1"
    customerName := none
    vendorName := none
    invoiceNumber := none
    invoiceDate := none
    dueDate := none
    amount := some 250
    currency := none
    lineItems := some [putItemNoId] }

/-- A patch supplying only `amount` (every other field undefined). -/
def amountOnlyPatch : InvoiceUpdate :=
  { customerName := none
    vendorName := none
    invoiceNumber := none
    invoiceDate := none
    dueDate := none
    amount := some 999
    currency := none
    status := none
    notes := none }

/-! # Theorems -/

/-- The boolean `where` clause of the duplicate lookup, as a proposition. -/
theorem duplicateKeyMatches_iff (v n : String) (a : ℚ) (inv : Invoice) :
    duplicateKeyMatches v n a inv = true ↔
      inv.vendorName = v ∧ inv.invoiceNumber = n ∧ inv.amount = a := by
  simp [duplicateKeyMatches, and_assoc]

/-- C3: the duplicate check is an exact-match lookup over persisted
invoices — case-sensitive string equality on `vendorName` and
`invoiceNumber`, exact numeric equality on `amount` — returning the first
matching invoice, and no match exactly when no persisted invoice carries
that triple. -/
theorem findDuplicateInvoice_exact_first (invoices : List Invoice)
    (v n : String) (a : ℚ) :
    (∀ inv, findDuplicateInvoice invoices v n a = some inv →
      (inv.vendorName = v ∧ inv.invoiceNumber = n ∧ inv.amount = a) ∧
      ∃ pre post, invoices = pre ++ inv :: post ∧
        ∀ j ∈ pre,
          ¬(j.vendorName = v ∧ j.invoiceNumber = n ∧ j.amount = a)) ∧
    (findDuplicateInvoice invoices v n a = none ↔
      ∀ inv ∈ invoices,
        ¬(inv.vendorName = v ∧ inv.invoiceNumber = n ∧ inv.amount = a)) := by
  constructor
  · intro inv h
    rw [findDuplicateInvoice, List.find?_eq_some] at h
    obtain ⟨hp, pre, post, heq, hpre⟩ := h
    refine ⟨(duplicateKeyMatches_iff v n a inv).mp hp, pre, post, heq, ?_⟩
    intro j hj hcon
    have := hpre j hj
    rw [Bool.not_eq_true'] at this
    exact absurd ((duplicateKeyMatches_iff v n a j).mpr hcon) (by simp [this])
  · rw [findDuplicateInvoice, List.find?_eq_none]
    constructor
    · intro h inv hmem hcon
      exact h inv hmem ((duplicateKeyMatches_iff v n a inv).mpr hcon)
    · intro h inv hmem hp
      exact h inv hmem ((duplicateKeyMatches_iff v n a inv).mp hp)

/-- Witness for C3 at a concrete store: the lookup finds the stored row
with the exact triple, and misses on a triple differing only in case. -/
theorem findDuplicateInvoice_exact_first_witness :
    ((invRow 3).vendorName = "Vendor Inc" ∧
      (invRow 3).invoiceNumber = "INV-3" ∧ (invRow 3).amount = 100) ∧
    (∃ pre post, [invRow 3] = pre ++ invRow 3 :: post ∧
      ∀ j ∈ pre,
        ¬(j.vendorName = "Vendor Inc" ∧ j.invoiceNumber = "INV-3" ∧
          j.amount = 100)) :=
  (findDuplicateInvoice_exact_first [invRow 3] "Vendor Inc" "INV-3" 100).1
    (invRow 3) (by decide)

/-- C10: the bulk line-item insert returns the empty list on empty input
and leaves the store untouched (no insert statement is issued). -/
theorem saveLineItems_empty (now : Nat) (st : Store) :
    saveLineItems now [] st = ([], st) := rfl

/-- C4: the invoice update is a partial-field patch: a row whose id does
not match is untouched; the matching row is replaced by its patch, in
which every supplied field takes the supplied value, every unsupplied
(undefined) field keeps its prior value, and the never-updatable columns
(`id`, `createdAt`, `filePath`, `fileType`, `fileSize`, `tokensUsed`,
`tokensCost`) are always kept. -/
theorem updateInvoice_partial_patch (id : String) (u : InvoiceUpdate)
    (invs : List Invoice) (inv : Invoice) (hmem : inv ∈ invs) :
    (inv.id ≠ id → inv ∈ updateInvoice id u invs) ∧
    (inv.id = id → applyUpdate u inv ∈ updateInvoice id u invs) ∧
    ((applyUpdate u inv).id = inv.id ∧
      (applyUpdate u inv).createdAt = inv.createdAt ∧
      (applyUpdate u inv).filePath = inv.filePath ∧
      (applyUpdate u inv).fileType = inv.fileType ∧
      (applyUpdate u inv).fileSize = inv.fileSize ∧
      (applyUpdate u inv).tokensUsed = inv.tokensUsed ∧
      (applyUpdate u inv).tokensCost = inv.tokensCost) ∧
    ((u.customerName = none →
        (applyUpdate u inv).customerName = inv.customerName) ∧
      ∀ x, u.customerName = some x → (applyUpdate u inv).customerName = x) ∧
    ((u.vendorName = none →
        (applyUpdate u inv).vendorName = inv.vendorName) ∧
      ∀ x, u.vendorName = some x → (applyUpdate u inv).vendorName = x) ∧
    ((u.invoiceNumber = none →
        (applyUpdate u inv).invoiceNumber = inv.invoiceNumber) ∧
      ∀ x, u.invoiceNumber = some x →
        (applyUpdate u inv).invoiceNumber = x) ∧
    ((u.invoiceDate = none →
        (applyUpdate u inv).invoiceDate = inv.invoiceDate) ∧
      ∀ x, u.invoiceDate = some x → (applyUpdate u inv).invoiceDate = x) ∧
    ((u.dueDate = none → (applyUpdate u inv).dueDate = inv.dueDate) ∧
      ∀ x, u.dueDate = some x → (applyUpdate u inv).dueDate = some x) ∧
    ((u.amount = none → (applyUpdate u inv).amount = inv.amount) ∧
      ∀ x, u.amount = some x → (applyUpdate u inv).amount = x) ∧
    ((u.currency = none → (applyUpdate u inv).currency = inv.currency) ∧
      ∀ x, u.currency = some x → (applyUpdate u inv).currency = some x) ∧
    ((u.status = none → (applyUpdate u inv).status = inv.status) ∧
      ∀ x, u.status = some x → (applyUpdate u inv).status = x) ∧
    ((u.notes = none → (applyUpdate u inv).notes = inv.notes) ∧
      ∀ x, u.notes = some x → (applyUpdate u inv).notes = some x) := by
  refine ⟨?_, ?_, ?_, ?_, ?_, ?_, ?_, ?_, ?_, ?_, ?_, ?_⟩
  · intro hne
    have : (fun j => if j.id = id then applyUpdate u j else j) inv = inv := by
      simp [hne]
    exact this ▸ List.mem_map_of_mem _ hmem
  · intro heq
    have : (fun j => if j.id = id then applyUpdate u j else j) inv =
        applyUpdate u inv := by simp [heq]
    exact this ▸ List.mem_map_of_mem _ hmem
  · exact ⟨rfl, rfl, rfl, rfl, rfl, rfl, rfl⟩
  all_goals
    constructor
  all_goals
    first
      | (intro h; simp [applyUpdate, h])
      | (intro x h; simp [applyUpdate, h])

/-- Witness for C4: updating only `amount` on a stored row patches the
matching row and leaves its `customerName` unchanged. -/
theorem updateInvoice_partial_patch_witness :
    (applyUpdate amountOnlyPatch (invRow 3) ∈
      updateInvoice "3" amountOnlyPatch [invRow 3]) ∧
    (applyUpdate amountOnlyPatch (invRow 3)).customerName =
      (invRow 3).customerName :=
  ⟨(updateInvoice_partial_patch "3" amountOnlyPatch [invRow 3] (invRow 3)
      (by decide)).2.1 (by decide),
    (updateInvoice_partial_patch "3" amountOnlyPatch [invRow 3] (invRow 3)
      (by decide)).2.2.2.1.1 rfl⟩

/-- C6: on an orphan-free store, deleting an invoice removes the invoice
row and (through the DDL's `ON DELETE cascade`) every `LineItem` whose
`invoiceId` references it, and the store stays orphan-free — zero orphaned
line items remain after the delete. -/
theorem deleteInvoiceById_cascade (id : String) (st : Store)
    (h : orphanFree st) :
    (∀ li ∈ (deleteInvoiceById id st).lineItems, li.invoiceId ≠ id) ∧
    (∀ inv ∈ (deleteInvoiceById id st).invoices, inv.id ≠ id) ∧
    orphanFree (deleteInvoiceById id st) := by
  by_cases hex : st.invoices.any (fun inv => inv.id = id)
  · rw [deleteInvoiceById, if_pos hex]
    refine ⟨?_, ?_, ?_⟩
    · intro li hli
      have := (List.mem_filter.mp hli).2
      simpa using this
    · intro inv hinv
      have := (List.mem_filter.mp hinv).2
      simpa using this
    · intro li hli
      obtain ⟨hmem, hneq⟩ := List.mem_filter.mp hli
      obtain ⟨inv, hinvmem, hinvid⟩ := h li hmem
      refine ⟨inv, List.mem_filter.mpr ⟨hinvmem, ?_⟩, hinvid⟩
      simp only [decide_eq_true_eq] at hneq ⊢
      exact fun hcon => hneq (hinvid ▸ hcon ▸ rfl)
  · rw [deleteInvoiceById, if_neg hex]
    have hnone : ∀ inv ∈ st.invoices, inv.id ≠ id := by
      intro inv hinv hcon
      exact hex (List.any_eq_true.mpr ⟨inv, hinv, by simp [hcon]⟩)
    refine ⟨?_, ?_, ?_⟩
    · intro li hli hcon
      obtain ⟨inv, hinvmem, hinvid⟩ := h li hli
      exact hnone inv hinvmem (hinvid.trans hcon)
    · intro inv hinv
      have := (List.mem_filter.mp hinv).2
      simpa using this
    · intro li hli
      obtain ⟨inv, hinvmem, hinvid⟩ := h li hli
      exact ⟨inv, List.mem_filter.mpr ⟨hinvmem, by
        simpa using hnone inv hinvmem⟩, hinvid⟩

/-- Witness for C6 at a concrete two-invoice store with one line item per
invoice: after deleting invoice `"1"`, no line item references it and the
store is still orphan-free. -/
theorem deleteInvoiceById_cascade_witness :
    (∀ li ∈ (deleteInvoiceById "1"
      { invoices := [invRow 1, invRow 2]
        lineItems :=
          [{ id := "li1", invoiceId := "1", description := "widgets",
             quantity := none, unitPrice := none, amount := 100,
             productCode := none, taxRate := none, metadata := none,
             createdAt := 0 },
           { id := "li2", invoiceId := "2", description := "gadgets",
             quantity := none, unitPrice := none, amount := 100,
             productCode := none, taxRate := none, metadata := none,
             createdAt := 0 }] }).lineItems, li.invoiceId ≠ "1") ∧
    orphanFree (deleteInvoiceById "1"
      { invoices := [invRow 1, invRow 2]
        lineItems :=
          [{ id := "li1", invoiceId := "1", description := "widgets",
             quantity := none, unitPrice := none, amount := 100,
             productCode := none, taxRate := none, metadata := none,
             createdAt := 0 },
           { id := "li2", invoiceId := "2", description := "gadgets",
             quantity := none, unitPrice := none, amount := 100,
             productCode := none, taxRate := none, metadata := none,
             createdAt := 0 }] }) :=
  ⟨(deleteInvoiceById_cascade "1" _ (by unfold orphanFree; decide)).1,
    (deleteInvoiceById_cascade "1" _ (by unfold orphanFree; decide)).2.2⟩

/-- Inserting into the newest-first order keeps one more element. -/
theorem length_insertByCreatedAtDesc (inv : Invoice) (l : List Invoice) :
    (insertByCreatedAtDesc inv l).length = l.length + 1 := by
  induction l with
  | nil => rfl
  | cons x xs ih =>
    rw [insertByCreatedAtDesc]
    split
    · simp [ih]
    · simp

/-- The newest-first ordering is a permutation step by step. -/
theorem perm_insertByCreatedAtDesc (inv : Invoice) (l : List Invoice) :
    (insertByCreatedAtDesc inv l).Perm (inv :: l) := by
  induction l with
  | nil => exact List.Perm.refl _
  | cons x xs ih =>
    rw [insertByCreatedAtDesc]
    split
    · exact (ih.cons x).trans (List.Perm.swap inv x xs)
    · exact List.Perm.refl _

/-- Sorting by `createdAt` keeps the length. -/
theorem length_sortByCreatedAtDesc (l : List Invoice) :
    (sortByCreatedAtDesc l).length = l.length := by
  induction l with
  | nil => rfl
  | cons x xs ih =>
    rw [sortByCreatedAtDesc, length_insertByCreatedAtDesc, ih]
    rfl

/-- Sorting by `createdAt` permutes the rows. -/
theorem perm_sortByCreatedAtDesc (l : List Invoice) :
    (sortByCreatedAtDesc l).Perm l := by
  induction l with
  | nil => exact List.Perm.refl _
  | cons x xs ih =>
    exact (perm_insertByCreatedAtDesc x (sortByCreatedAtDesc xs)).trans
      (ih.cons x)

/-- Counterexample to C7: on a store holding 101 invoices, the `GET`
handler's body has only 100 rows (the defaulted `limit` of `getInvoices`),
so it is not the list of all persisted invoices. -/
theorem GEThandler_not_all_invoices :
    (GEThandler false bigStore).body.length = 100 ∧
    bigStore.invoices.length = 101 ∧
    (GEThandler false bigStore).body.length ≠ bigStore.invoices.length := by
  have hlen : bigStore.invoices.length = 101 := by
    simp [bigStore]
  have hbody : (GEThandler false bigStore).body.length = 100 := by
    show ((((sortByCreatedAtDesc bigStore.invoices).drop 0).take 100)).length
      = 100
    rw [List.drop_zero, List.length_take, length_sortByCreatedAtDesc, hlen]
    rfl
  exact ⟨hbody, hlen, by rw [hbody, hlen]; decide⟩

/-- C7 (amended): `GET /invoices` passes no pagination arguments, so the
storage defaults apply — the handler returns status 200 with the persisted
invoices ordered newest-first and truncated to the first 100; whenever at
most 100 invoices are persisted this body is a permutation of all of them;
a failing storage query is answered with status 500. -/
theorem GEThandler_spec (queryFails : Bool) (st : Store) :
    (queryFails = true → (GEThandler queryFails st).status = 500) ∧
    (queryFails = false →
      (GEThandler queryFails st).status = 200 ∧
      (GEThandler queryFails st).body =
        (sortByCreatedAtDesc st.invoices).take 100 ∧
      (st.invoices.length ≤ 100 →
        (GEThandler queryFails st).body.Perm st.invoices)) := by
  constructor
  · intro h
    rw [h]
    rfl
  · intro h
    subst h
    refine ⟨rfl, ?_, ?_⟩
    · show ((sortByCreatedAtDesc st.invoices).drop 0).take 100 = _
      rw [List.drop_zero]
    · intro hle
      show (((sortByCreatedAtDesc st.invoices).drop 0).take 100).Perm
        st.invoices
      rw [List.drop_zero, List.take_of_length_le
        (by rw [length_sortByCreatedAtDesc]; exact hle)]
      exact perm_sortByCreatedAtDesc st.invoices

/-- Witness for C7's amended theorem: on a concrete two-invoice store, a
successful query answers 200 with both invoices, and a failing query
answers 500. -/
theorem GEThandler_spec_witness :
    (GEThandler true { invoices := [invRow 1, invRow 2], lineItems := [] }).status = 500 ∧
    (GEThandler false { invoices := [invRow 1, invRow 2], lineItems := [] }).status = 200 ∧
    (GEThandler false { invoices := [invRow 1, invRow 2], lineItems := [] }).body.Perm
      [invRow 1, invRow 2] :=
  ⟨(GEThandler_spec true { invoices := [invRow 1, invRow 2], lineItems := [] }).1 rfl,
    ((GEThandler_spec false { invoices := [invRow 1, invRow 2], lineItems := [] }).2 rfl).1,
    ((GEThandler_spec false { invoices := [invRow 1, invRow 2], lineItems := [] }).2 rfl).2.2
      (by decide)⟩

/-- C8: the Persistence Coordinator writes the invoice row first and only
then the line items, with no cross-table transaction: when the line-item
insertion fails after the invoice insertion succeeded, the call raises,
the line-item table is untouched, yet the freshly written invoice row
remains persisted — no automatic rollback. -/
theorem saveInvoiceToDatabase_no_rollback (gen : Nat → String)
    (now c : Nat) (d : InvoiceData) (tokensUsed : Nat) (st : Store)
    (h : d.lineItems.length ≠ 0) :
    (∃ e, (saveInvoiceToDatabase gen now true c d tokensUsed st).1 =
      Except.error e) ∧
    (∃ inv ∈ (saveInvoiceToDatabase gen now true c d tokensUsed st).2.1.invoices,
      inv.id = gen c ∧ inv.vendorName = d.vendorName ∧
      inv.invoiceNumber = d.invoiceNumber ∧ inv.amount = d.amount) ∧
    (saveInvoiceToDatabase gen now true c d tokensUsed st).2.1.lineItems =
      st.lineItems := by
  have heq : saveInvoiceToDatabase gen now true c d tokensUsed st =
      (Except.error "saveLineItems failed",
        { st with invoices := st.invoices ++
            [{ id := gen c
               createdAt := now
               customerName := d.customerName
               vendorName := d.vendorName
               invoiceNumber := d.invoiceNumber
               invoiceDate := d.invoiceDate
               dueDate := d.dueDate
               amount := d.amount
               currency := some d.currency
               status := InvoiceStatus.processed
               filePath := none
               fileType := none
               fileSize := none
               tokensUsed := some tokensUsed
               tokensCost := none
               notes := d.notes }] },
        c + 1) := by
    simp [saveInvoiceToDatabase, saveInvoice, h]
  rw [heq]
  exact ⟨⟨"saveLineItems failed", rfl⟩,
    ⟨{ id := gen c
       createdAt := now
       customerName := d.customerName
       vendorName := d.vendorName
       invoiceNumber := d.invoiceNumber
       invoiceDate := d.invoiceDate
       dueDate := d.dueDate
       amount := d.amount
       currency := some d.currency
       status := InvoiceStatus.processed
       filePath := none
       fileType := none
       fileSize := none
       tokensUsed := some tokensUsed
       tokensCost := none
       notes := d.notes },
      List.mem_append_right _ (List.mem_singleton.mpr rfl),
      rfl, rfl, rfl, rfl⟩, rfl⟩

/-- Witness for C8: with the sample one-line-item invoice and a failing
line-item insert, the invoice row with the generated id is persisted and
the line-item table is unchanged. -/
theorem saveInvoiceToDatabase_no_rollback_witness :
    (∃ e, (saveInvoiceToDatabase gen0 5 true 0 sampleData 10 emptyStore).1 =
      Except.error e) ∧
    (∃ inv ∈ (saveInvoiceToDatabase gen0 5 true 0 sampleData 10 emptyStore).2.1.invoices,
      inv.id = gen0 0 ∧ inv.vendorName = sampleData.vendorName ∧
      inv.invoiceNumber = sampleData.invoiceNumber ∧
      inv.amount = sampleData.amount) ∧
    (saveInvoiceToDatabase gen0 5 true 0 sampleData 10 emptyStore).2.1.lineItems =
      emptyStore.lineItems :=
  saveInvoiceToDatabase_no_rollback gen0 5 0 sampleData 10 emptyStore
    (by decide)

/-- Index-wise description of the `PUT` handler's line-item formatting. -/
theorem formatLineItems_getElem? (gen : Nat → String) (invoiceId : String) :
    ∀ (idx k : Nat) (items : List PutLineItem) (item : PutLineItem),
      items[k]? = some item →
      (formatLineItems gen invoiceId idx items)[k]? = some
        { id := resolveLineItemId gen (idx + k) item.id
          invoiceId := invoiceId
          description := item.description
          quantity := item.quantity
          unitPrice := item.unitPrice
          amount := item.amount
          productCode := item.productCode
          taxRate := item.taxRate
          metadata := item.metadata } := by
  intro idx k items
  induction items generalizing idx k with
  | nil => intro item h; simp at h
  | cons x xs ih =>
    intro item h
    cases k with
    | zero =>
      simp at h
      subst h
      simp [formatLineItems]
    | succ m =>
      simp at h
      have := ih (idx + 1) m item h
      rw [formatLineItems]
      simpa [Nat.add_assoc, Nat.add_comm 1 m] using this

/-- C5: a `PUT /invoices` whose body carries a `lineItems` array answers
200 and fully replaces the invoice's persisted line items: every prior
row with that `invoiceId` is deleted, the supplied items are inserted in
order, the item at position `k` is tagged with the invoice's id and — when
it lacks an id — assigned the `k`-th generated id, and every surviving row
tagged with the invoice's id comes from the supplied array. -/
theorem PUThandler_lineItems_replace (gen : Nat → String) (now : Nat)
    (body : PutBody) (st : Store) (id : String)
    (items : List PutLineItem) (hid : body.id = some id) (hne : id ≠ "")
    (hli : body.lineItems = some items) :
    (PUThandler gen now body st).status = 200 ∧
    (PUThandler gen now body st).store.lineItems =
      st.lineItems.filter (fun li => li.invoiceId ≠ id) ++
        (formatLineItems gen id 0 items).map (lineItemRow now) ∧
    (∀ k item, items[k]? = some item →
      ∃ ins, (formatLineItems gen id 0 items)[k]? = some ins ∧
        ins.invoiceId = id ∧ (item.id = none → ins.id = gen k)) ∧
    (∀ li ∈ (PUThandler gen now body st).store.lineItems,
      li.invoiceId = id →
        li ∈ (formatLineItems gen id 0 items).map (lineItemRow now)) := by
  have hput : PUThandler gen now body st =
      { status := 200
        store :=
          (saveLineItems now (formatLineItems gen id 0 items)
            (deleteLineItemsByInvoiceId id
              { st with invoices :=
                  updateInvoice id (putPatch body) st.invoices })).2 } := by
    rw [PUThandler, hid]
    simp only [hli, if_neg hne]
  have hitems : (saveLineItems now (formatLineItems gen id 0 items)
      (deleteLineItemsByInvoiceId id
        { st with invoices :=
            updateInvoice id (putPatch body) st.invoices })).2.lineItems =
      st.lineItems.filter (fun li => li.invoiceId ≠ id) ++
        (formatLineItems gen id 0 items).map (lineItemRow now) := by
    rw [saveLineItems]
    split
    · next hz =>
      have : formatLineItems gen id 0 items = [] :=
        List.length_eq_zero.mp hz
      simp [deleteLineItemsByInvoiceId, this]
    · simp [deleteLineItemsByInvoiceId]
  refine ⟨by rw [hput], by rw [hput]; exact hitems, ?_, ?_⟩
  · intro k item hk
    refine ⟨_, formatLineItems_getElem? gen id 0 k items item hk, rfl, ?_⟩
    intro hnone
    show resolveLineItemId gen (0 + k) item.id = gen k
    rw [hnone, resolveLineItemId, Nat.zero_add]
  · intro li hmem hid2
    rw [hput] at hmem
    rw [hitems] at hmem
    rcases List.mem_append.mp hmem with hl | hr
    · exact absurd hid2 (by simpa using (List.mem_filter.mp hl).2)
    · exact hr

/-- Witness for C5: a concrete `PUT` on invoice `"1"` with one id-less
line item answers 200, and the formatted item is tagged with the
invoice's id and the freshly generated id. -/
theorem PUThandler_lineItems_replace_witness :
    (PUThandler gen0 9 putBodyLI
      { invoices := [invRow 1], lineItems := [] }).status = 200 ∧
    (∃ ins, (formatLineItems gen0 "1" 0 [putItemNoId])[0]? = some ins ∧
      ins.invoiceId = "1" ∧ (putItemNoId.id = none → ins.id = gen0 0)) :=
  ⟨(PUThandler_lineItems_replace gen0 9 putBodyLI
      { invoices := [invRow 1], lineItems := [] } "1" [putItemNoId]
      rfl (by decide) rfl).1,
    (PUThandler_lineItems_replace gen0 9 putBodyLI
      { invoices := [invRow 1], lineItems := [] } "1" [putItemNoId]
      rfl (by decide) rfl).2.2.1 0 putItemNoId rfl⟩

/-- Counterexample to C1: the single-file pipeline accepts a result with
`isInvoice` true and confidence exactly 0.7 — it is not rejected, although
its confidence is not strictly greater than 0.75 (the two pipelines gate
on different thresholds). -/
theorem single_pipeline_accepts_below_batch_threshold :
    extractInvoiceDataOutcome emptyStore borderResult ≠
      SingleOutcome.rejectedNotInvoice ∧
    borderResult.isInvoice = true ∧
    ¬(borderResult.confidence > mkRat 75 100) := by decide

/-- C1 (amended): the batch pipeline accepts a parsed result into the
invoice bucket exactly when `isInvoice` is true and `confidence > 0.75` —
below that a file is rejected with the model's stated reasoning and
nothing is persisted — while the single-file pipeline rejects exactly when
`isInvoice` is false or `confidence < 0.7` (so it accepts from 0.7 up,
not 0.75). -/
theorem acceptance_thresholds (st : Store) (r : ExtractResult)
    (gen : Nat → String) (now : Nat) (f : BatchFile) (t : Nat)
    (hf : f.extraction = Except.ok (r, t)) :
    (extractInvoiceDataOutcome st r = SingleOutcome.rejectedNotInvoice ↔
      (r.isInvoice = false ∨ r.confidence < mkRat 7 10)) ∧
    (¬(r.isInvoice = true ∧ mkRat 75 100 < r.confidence) →
      (processInvoiceData gen now [f] st).success = false ∧
      (processInvoiceData gen now [f] st).nonInvoice =
        [(f.name, r.reasoning)] ∧
      (processInvoiceData gen now [f] st).saved = [] ∧
      (processInvoiceData gen now [f] st).store = st) ∧
    ((r.isInvoice = true ∧ mkRat 75 100 < r.confidence) →
      (processInvoiceData gen now [f] st).saved ≠ [] ∨
      (processInvoiceData gen now [f] st).duplicates ≠ []) := by
  refine ⟨?_, ?_, ?_⟩
  · rw [extractInvoiceDataOutcome]
    constructor
    · intro h
      by_contra hcon
      rw [if_neg hcon] at h
      split at h
      · exact SingleOutcome.noConfusion h
      · exact SingleOutcome.noConfusion h
    · intro h
      rw [if_pos h]
  · intro hcond
    have hcf : classifyFiles [f] =
        Except.ok ([], [(f.name, r.reasoning)]) := by
      simp [classifyFiles, hf, if_neg hcond]
    have hout : processInvoiceData gen now [f] st =
        { success := false, saved := [], duplicates := [],
          nonInvoice := [(f.name, r.reasoning)], events := [],
          store := st } := by
      rw [processInvoiceData, if_neg (by simp), hcf]
      rfl
    rw [hout]
    exact ⟨rfl, rfl, rfl, rfl⟩
  · intro hcond
    have hcf : classifyFiles [f] = Except.ok
        ([{ fileName := f.name, invoiceData := r.invoiceData,
            tokensUsed := t }], []) := by
      simp [classifyFiles, hf, if_pos hcond]
    rw [processInvoiceData, if_neg (by simp), hcf]
    cases hdup : findDuplicateInvoice st.invoices r.invoiceData.vendorName
        r.invoiceData.invoiceNumber r.invoiceData.amount with
    | some dup =>
      right
      simp [saveLoop, hdup]
    | none =>
      left
      simp [saveLoop, hdup]

/-- Witness for C1's amended theorem: the single-file gate evaluated on a
confident result, and the batch pipeline rejecting the 0.7-confidence file
with the model's reasoning. -/
theorem acceptance_thresholds_witness :
    (extractInvoiceDataOutcome emptyStore okResult =
        SingleOutcome.rejectedNotInvoice ↔
      (okResult.isInvoice = false ∨ okResult.confidence < mkRat 7 10)) ∧
    (processInvoiceData gen0 0 [fileBorder] emptyStore).nonInvoice =
      [(fileBorder.name, borderResult.reasoning)] :=
  ⟨(acceptance_thresholds emptyStore okResult gen0 0 fileOk 10 rfl).1,
    ((acceptance_thresholds emptyStore borderResult gen0 0 fileBorder 5
      rfl).2.1 (by decide)).2.1⟩

/-- A thrown extraction call anywhere in a batch makes the whole
classification loop raise (the call is not wrapped per file). -/
theorem classifyFiles_error_of_mem (files : List BatchFile)
    (h : ∃ f ∈ files, ∃ msg, f.extraction = Except.error msg) :
    ∃ e, classifyFiles files = Except.error e := by
  induction files with
  | nil => simp at h
  | cons f rest ih =>
    obtain ⟨g, hg, msg, hge⟩ := h
    cases hfe : f.extraction with
    | error e' => exact ⟨e', by simp [classifyFiles, hfe]⟩
    | ok p =>
      obtain ⟨r, tokens⟩ := p
      rcases List.mem_cons.mp hg with hgf | hgr
      · rw [hgf, hfe] at hge
        exact absurd hge (by simp)
      · obtain ⟨e2, h2⟩ := ih ⟨g, hgr, msg, hge⟩
        exact ⟨e2, by simp [classifyFiles, hfe, h2]⟩

/-- Counterexample to C2: in the batch pipeline, a thrown extraction call
for the second file aborts the entire batch — the first and third files
are not processed (no saved, duplicate or non-invoice outcome for any of
them), the failing file is not routed to a non-invoice rejection, and the
tool answers with its generic database-error result. -/
theorem batch_aborts_on_extraction_throw :
    (processInvoiceData gen0 0 [fileOk, fileErr, fileOk2]
      emptyStore).success = false ∧
    (processInvoiceData gen0 0 [fileOk, fileErr, fileOk2]
      emptyStore).nonInvoice = [] ∧
    (processInvoiceData gen0 0 [fileOk, fileErr, fileOk2]
      emptyStore).saved = [] ∧
    (processInvoiceData gen0 0 [fileOk, fileErr, fileOk2]
      emptyStore).duplicates = [] ∧
    (processInvoiceData gen0 0 [fileOk, fileErr, fileOk2]
      emptyStore).events = [StreamEvent.error batchErrorContent] ∧
    (processInvoiceData gen0 0 [fileOk, fileErr, fileOk2]
      emptyStore).store = emptyStore := by decide

/-- C2 (amended): extraction-failure isolation lives only in the
single-file pipeline — `performInvoiceExtraction` turns a thrown call into
a non-invoice fallback with the generic "Error occurred during extraction"
reasoning, which the pipeline then rejects — whereas in the batch pipeline
a thrown extraction call aborts the whole batch through the outer catch:
nothing is persisted, every bucket is empty and one generic error event is
emitted. -/
theorem extraction_failure_handling (gen : Nat → String) (now : Nat)
    (files : List BatchFile) (st : Store) :
    (∀ msg, performInvoiceExtraction (Except.error msg) =
      { invoiceData := createEmptyInvoiceData, isInvoice := false,
        confidence := mkRat 1 10,
        reasoning := "Error occurred during extraction" } ∧
      extractInvoiceDataOutcome st
          (performInvoiceExtraction (Except.error msg)) =
        SingleOutcome.rejectedNotInvoice) ∧
    ((∃ f ∈ files, ∃ msg, f.extraction = Except.error msg) →
      (processInvoiceData gen now files st).success = false ∧
      (processInvoiceData gen now files st).events =
        [StreamEvent.error batchErrorContent] ∧
      (processInvoiceData gen now files st).saved = [] ∧
      (processInvoiceData gen now files st).nonInvoice = [] ∧
      (processInvoiceData gen now files st).store = st) := by
  constructor
  · intro msg
    exact ⟨rfl, rfl⟩
  · intro h
    have hne : ¬(files.length = 0) := by
      obtain ⟨f, hf, _⟩ := h
      intro hlen
      rw [List.length_eq_zero.mp hlen] at hf
      simp at hf
    obtain ⟨e, he⟩ := classifyFiles_error_of_mem files h
    rw [processInvoiceData, if_neg hne, he]
    exact ⟨rfl, rfl, rfl, rfl, rfl⟩

/-- Witness for C2's amended theorem: the fallback for a concrete thrown
call, and the batch abort on the concrete three-file batch whose second
file throws. -/
theorem extraction_failure_handling_witness :
    (performInvoiceExtraction (Except.error "timeout") =
      { invoiceData := createEmptyInvoiceData, isInvoice := false,
        confidence := mkRat 1 10,
        reasoning := "Error occurred during extraction" }) ∧
    (processInvoiceData gen0 0 [fileOk, fileErr, fileOk2]
      emptyStore).success = false :=
  ⟨((extraction_failure_handling gen0 0 [fileOk, fileErr, fileOk2]
      emptyStore).1 "timeout").1,
    ((extraction_failure_handling gen0 0 [fileOk, fileErr, fileOk2]
      emptyStore).2 ⟨fileErr,
        List.mem_cons_of_mem fileOk (List.mem_cons_self fileErr [fileOk2]),
        "timeout", rfl⟩).1⟩

/-- Counterexample to C9: a successful one-file batch in the current
pipeline emits exactly one stream event — the `invoiceTable` data event
after the batch — so no progress event is emitted at the start of the
batch (fewer than two events exist in total). -/
theorem batch_emits_no_start_event :
    (processInvoiceData gen0 0 [fileOk] emptyStore).events =
      [StreamEvent.invoiceTable [gen0 0]] ∧
    ¬(2 ≤ (processInvoiceData gen0 0 [fileOk] emptyStore).events.length) := by
  decide

/-- C9 (amended): the `part_004` variant emits exactly one `savingStart`
before its save loop and one `savingComplete` after it — one pair per
batch, independent of the number of files — while the current variant
emits at most one event per run (an `invoiceTable` event after the batch
when an invoice was saved, or one `error` event on abort); events are
appended to the stream in program order by construction. -/
theorem batch_progress_event_policy (gen : Nat → String) (now : Nat)
    (files : List BatchFile) (st : Store) (l : List AcceptedFile)
    (hok : classifyFilesV0 files = Except.ok l) (hne : files ≠ []) :
    (processInvoiceDataV0 gen now files st).events =
      [StreamEvent.savingStart, StreamEvent.savingComplete] ∧
    (processInvoiceData gen now files st).events.length ≤ 1 := by
  constructor
  · have hlen : ¬(files.length = 0) := fun h => hne (List.length_eq_zero.mp h)
    rw [processInvoiceDataV0, if_neg hlen, hok]
  · rw [processInvoiceData]
    split
    · simp
    · split
      · simp
      · split
        · simp
        · simp only [BatchOutput.events]
          split
          · simp
          · simp

/-- Witness for C9's amended theorem on a concrete two-file batch: the
`part_004` variant emits the `savingStart`/`savingComplete` pair (not one
pair per file), the current variant a single event. -/
theorem batch_progress_event_policy_witness :
    (processInvoiceDataV0 gen0 0 [fileOk, fileOk2] emptyStore).events =
      [StreamEvent.savingStart, StreamEvent.savingComplete] ∧
    (processInvoiceData gen0 0 [fileOk, fileOk2] emptyStore).events.length ≤ 1 :=
  batch_progress_event_policy gen0 0 [fileOk, fileOk2] emptyStore
    [accA, accC] rfl (by simp)

end HoaiInvoice
